import Mathlib

/-!
Shallow embedding of the `googlesheets` CJWorkbench module
(`googlesheets.py`): fetching a Google Drive file and rendering
previously fetched bytes into a table.

Modelling conventions:
* A file on disk is modelled by its byte content, `List Nat`.
* Python dicts with heterogeneous values are modelled as association
  lists of `JsonValue`s (used for `migrate_params` and for i18n message
  arguments).
* External collaborators (the HTTP transport `httpfile.download`, the
  parquet converter `cjwparquet`, the CSV parser behind `_render_file`,
  and the stdlib JSON decoder `json.loads`) are passed in as function
  parameters: the module under verification only plumbs them together.
* Python exceptions that escape a function (`RuntimeError`, `KeyError`,
  `AssertionError`, `TypeError`) are modelled with `Except String`.
-/

namespace googlesheets

/-- Python/JSON value universe, for dict-shaped parameters and i18n
message arguments. -/
inductive JsonValue where
  | null : JsonValue
  | bool (b : Bool) : JsonValue
  | num (n : Int) : JsonValue
  | str (s : String) : JsonValue
  | arr (xs : List JsonValue) : JsonValue
  | obj (kvs : List (String × JsonValue)) : JsonValue

/-- Python truthiness of a JSON-shaped value (`if params[...]:`). -/
def JsonValue.truthy : JsonValue → Bool
  | .null => false
  | .bool b => b
  | .num n => n != 0
  | .str s => s != ""
  | .arr xs => !xs.isEmpty
  | .obj kvs => !kvs.isEmpty

/-- A Python dict with string keys, as an association list. -/
def PyDict : Type := List (String × JsonValue)

/-- Dict key lookup (`params[key]` / `params.get(key)`); first match wins,
`none` models an absent key. -/
def dict_lookup (params : PyDict) (key : String) : Option JsonValue :=
  match params with
  | [] => none
  | (k, v) :: rest => if k = key then some v else dict_lookup rest key

/-- `cjwmodule.i18n.I18nMessage`: an id, interpolation arguments and an
optional source, opaque to this module. -/
structure I18nMessage where
  id : String
  arguments : List (String × JsonValue)
  source : Option String

/-- `cjwmodule.i18n.trans(id, default)`: builds a module-sourced message
with empty arguments.  The default English text is only catalog data and
is not part of the message value. -/
def trans (id : String) : I18nMessage :=
  ⟨id, [], some "module"⟩

/-- `RenderError` from `googlesheets.py`: a message plus quick fixes,
which this module never populates. -/
structure RenderError where
  message : I18nMessage
  quick_fixes : List Unit := []

/-- `FetchResult` from `googlesheets.py`.  The `path` field holds the
content of the file at the returned path (the observable state of
`output_path` when the call returns). -/
structure FetchResult where
  path : List Nat
  errors : List RenderError := []

/-- `GDRIVE_API_URL` constant. -/
def GDRIVE_API_URL : String := "https://www.googleapis.com/drive/v3"

/-- `_generate_google_sheet_url`: export-as-CSV endpoint. -/
def _generate_google_sheet_url (sheet_id : String) : String :=
  GDRIVE_API_URL ++ "/files/" ++ sheet_id ++ "/export?mimeType=text%2Fcsv"

/-- `_generate_gdrive_file_url`: raw-bytes download endpoint. -/
def _generate_gdrive_file_url (sheet_id : String) : String :=
  GDRIVE_API_URL ++ "/files/" ++ sheet_id ++ "?alt=media"

/-- `fetch_error(output_path, message)`: truncates the output to zero
bytes and returns a `FetchResult` with exactly one error. -/
def fetch_error (message : I18nMessage) : FetchResult :=
  ⟨[], [⟨message, []⟩]⟩

/-- `oauth2.Client`, holding the stored token. -/
structure OAuth2Client where
  token_type : String
  access_token : String

/-- Collaborator (oauthlib): `client.add_token(url, headers={})` for a
bearer-style token returns the URL unchanged plus an Authorization
header. -/
def OAuth2Client.add_token (c : OAuth2Client) (url : String) :
    String × List (String × String) :=
  (url, [("Authorization", c.token_type ++ " " ++ c.access_token)])

/-- Outcome of `await httpfile.download(url, output_path, headers)`:
success (with the structured bytes it wrote to `output_path`), an
`HttpError.NotSuccess` carrying the response status code and the
transport's own localized message, or any other `HttpError` (timeout,
DNS, ...) carrying its localized message. -/
inductive DownloadOutcome where
  | success (written : List Nat) : DownloadOutcome
  | notSuccess (status_code : Nat) (i18n_message : I18nMessage) : DownloadOutcome
  | failure (i18n_message : I18nMessage) : DownloadOutcome

/-- The HTTP transport collaborator: maps a URL and request headers to a
download outcome. -/
def Transport : Type := String → List (String × String) → DownloadOutcome

/-- Lines 77–82 of `do_download`: pick the export URL and override the
MIME type to text/csv for a native spreadsheet, else the raw-download
URL keeping the passed MIME type. -/
def do_download_url_mime (sheet_id sheet_mime_type : String) : String × String :=
  if sheet_mime_type = "application/vnd.google-apps.spreadsheet" then
    (_generate_google_sheet_url sheet_id, "text/csv")
  else
    (_generate_gdrive_file_url sheet_id, sheet_mime_type)

/-- `do_download(sheet_id, sheet_mime_type, oauth2_client, output_path)`:
build the URL, attach the token, perform the GET, and classify any
failure (401/403/404 mapped to fixed messages, anything else passes the
transport's message through). -/
def do_download (sheet_id sheet_mime_type : String) (oauth2_client : OAuth2Client)
    (transport : Transport) : FetchResult :=
  let um := do_download_url_mime sheet_id sheet_mime_type
  let uh := oauth2_client.add_token um.1
  match transport uh.1 uh.2 with
  | .success written => ⟨written, []⟩
  | .notSuccess status_code i18n_message =>
      if status_code = 401 then
        fetch_error (trans "error.http.status401")
      else if status_code = 403 then
        fetch_error (trans "error.http.status403")
      else if status_code = 404 then
        fetch_error (trans "error.http.status404")
      else
        fetch_error i18n_message
  | .failure i18n_message => fetch_error i18n_message

/-- The `file` param: a Google Drive file reference.  `mimeType = none`
models a dict without that key (pre-2018 entries). -/
structure FileMeta where
  id : String
  name : String
  url : String
  mimeType : Option String

/-- The stored token inside a usable credential
(`secret["secret"]`). -/
structure SecretTokens where
  token_type : String
  access_token : String

/-- The `google_credentials` secret dict: it may carry an `error` key (a
prior OAuth failure) and/or a `secret` key (usable tokens);
`fetch_arrow` checks `error` first. -/
structure Secret where
  error : Option I18nMessage
  secret : Option SecretTokens

/-- The params as read by fetch: only the `file` key is consulted. -/
structure FetchParams where
  file : Option FileMeta

/-- `fetch_arrow(params, secrets, ...)`: validate file selection, default
the MIME type, validate the credential, then delegate to `do_download`.
`Except.error` models the fatal RuntimeError/AssertionError paths. -/
def fetch_arrow (params : FetchParams) (secrets : Option Secret)
    (transport : Transport) : Except String FetchResult :=
  match params.file with
  | none => .ok (fetch_error (trans "error.params.noFile"))
  | some file_meta =>
    let sheet_id := file_meta.id
    if sheet_id = "" then
      .error "Missing file.id"
    else
      let sheet_mime_type :=
        file_meta.mimeType.getD "application/vnd.google-apps.spreadsheet"
      match secrets with
      | none => .ok (fetch_error (trans "error.secrets.noCredentials"))
      | some secret =>
        match secret.error with
        | some e => .ok (fetch_error e)
        | none =>
          match secret.secret with
          | none => .error "AssertionError"
          | some tok =>
            .ok (do_download sheet_id sheet_mime_type
                  ⟨tok.token_type, tok.access_token⟩ transport)

/-- The params as read by render: only `has_header` is consulted. -/
structure RenderParams where
  has_header : Bool

/-- External collaborators used by the render pipeline.
`file_has_parquet_magic_number` and
`convert_parquet_file_to_arrow_file` come from `cjwparquet`;
`render_file_impl` is the behavior of `_render_file` (the composition of
`httpfile.read`, header extraction and `cjwparse.parse_file`, all
external), mapping the stored httpfile bytes and `has_header` to the
output-table bytes it writes and the errors it returns. -/
structure RenderDeps where
  file_has_parquet_magic_number : List Nat → Bool
  convert_parquet_file_to_arrow_file : List Nat → List Nat
  render_file_impl : List Nat → Bool → List Nat × List I18nMessage

/-- `_render_deprecated_parquet(input_path, errors, output_path, params)`:
convert the legacy parquet bytes into the output table; when
`has_header` is false append the `cannotRemoveHeader` warning.  Returns
(output content, errors). -/
def _render_deprecated_parquet (deps : RenderDeps) (input_path : List Nat)
    (errors : List I18nMessage) (params : RenderParams) :
    List Nat × List I18nMessage :=
  let output := deps.convert_parquet_file_to_arrow_file input_path
  if params.has_header then
    (output, errors)
  else
    (output, errors ++ [trans "error.parquet.cannotRemoveHeader"])

/-- `render(arrow_table, params, output_path, fetch_result=...)`.  The
first component of the result is the content of the file at
`output_path` when the call returns (`output_path` is the content on
entry, supplied by the host); the second is the returned error list.
`fetch_result.path is not None` always holds in this model, so only the
magic-number sniff gates the deprecated branch. -/
def render (deps : RenderDeps) (params : RenderParams) (output_path : List Nat)
    (fetch_result : Option FetchResult) : List Nat × List I18nMessage :=
  match fetch_result with
  | none => (output_path, [])
  | some fr =>
    if deps.file_has_parquet_magic_number fr.path then
      _render_deprecated_parquet deps fr.path
        (fr.errors.map (fun e => e.message)) params
    else if !fr.errors.isEmpty then
      (output_path, fr.errors.map (fun e => e.message))
    else
      deps.render_file_impl fr.path params.has_header

/-- `_migrate_params_v0_to_v1(params)`: decode the `googlefileselect`
JSON string (empty or otherwise falsy value means no file) and repackage
under the v1 keys.  `json_loads` is the stdlib `json.loads`
collaborator. -/
def _migrate_params_v0_to_v1 (json_loads : String → Except String JsonValue)
    (params : PyDict) : Except String PyDict :=
  match dict_lookup params "googlefileselect" with
  | none => .error "KeyError: googlefileselect"
  | some gfs =>
    match (if gfs.truthy then
             match gfs with
             | .str s => json_loads s
             | _ => .error "TypeError: json.loads expects a string"
           else
             .ok .null : Except String JsonValue) with
    | .error e => .error e
    | .ok file =>
      match dict_lookup params "has_header" with
      | none => .error "KeyError: has_header"
      | some hh =>
        match dict_lookup params "version_select" with
        | none => .error "KeyError: version_select"
        | some vs =>
          .ok [("has_header", hh), ("version_select", vs), ("file", file)]

/-- `migrate_params(params)`: apply the v0→v1 migration exactly when the
legacy key is present. -/
def migrate_params (json_loads : String → Except String JsonValue)
    (params : PyDict) : Except String PyDict :=
  if (dict_lookup params "googlefileselect").isSome then
    _migrate_params_v0_to_v1 json_loads params
  else
    .ok params

/-! ### Concrete example values used by witnesses -/

/-- A sample transport-collaborator message (such as the one
`cjwmodule.http` attaches to a timeout). -/
def example_message : I18nMessage :=
  ⟨"http.errors.HttpErrorTimeout", [], some "cjwmodule"⟩

/-- A sample stored-credential error, as produced by a failed OAuth
refresh upstream. -/
def example_secret_error : I18nMessage :=
  ⟨"py.fetcher.secrets._refresh_oauth2_token.error.general",
   [("status_code", .num 400), ("error", .str "invalid_grant"),
    ("description", .str "Token has been expired or revoked.")], none⟩

/-! ### Claims about the fetch pipeline -/

/-- C1: once a fetch reaches the HTTP request, an HTTP 401 response
yields exactly the `status401` error, 403 yields `status403`, 404 yields
`status404`, and any other non-success status or network-level failure
yields the transport collaborator's own localized message unchanged; in
every failure case the output is truncated to zero bytes and the result
carries exactly one error entry. -/
theorem C1_do_download_failure_classification
    (sheet_id sheet_mime_type : String) (c : OAuth2Client)
    (m : I18nMessage) (status : Nat) :
    do_download sheet_id sheet_mime_type c (fun _ _ => .notSuccess 401 m)
        = ⟨[], [⟨trans "error.http.status401", []⟩]⟩
    ∧ do_download sheet_id sheet_mime_type c (fun _ _ => .notSuccess 403 m)
        = ⟨[], [⟨trans "error.http.status403", []⟩]⟩
    ∧ do_download sheet_id sheet_mime_type c (fun _ _ => .notSuccess 404 m)
        = ⟨[], [⟨trans "error.http.status404", []⟩]⟩
    ∧ (status ≠ 401 → status ≠ 403 → status ≠ 404 →
        do_download sheet_id sheet_mime_type c (fun _ _ => .notSuccess status m)
          = ⟨[], [⟨m, []⟩]⟩)
    ∧ do_download sheet_id sheet_mime_type c (fun _ _ => .failure m)
        = ⟨[], [⟨m, []⟩]⟩ := by
  refine ⟨rfl, rfl, rfl, ?_, rfl⟩
  intro h1 h2 h3
  simp [do_download, fetch_error, h1, h2, h3]

/-- Witness for C1 at a concrete generic status (429): the transport's
own message passes through. -/
theorem C1_do_download_failure_classification_witness :
    ((429 : Nat) ≠ 401) ∧
    do_download "sheet-id" "text/csv" ⟨"Bearer", "tok"⟩
        (fun _ _ => .notSuccess 429 example_message)
      = ⟨[], [⟨example_message, []⟩]⟩ :=
  ⟨by decide,
   (C1_do_download_failure_classification "sheet-id" "text/csv"
      ⟨"Bearer", "tok"⟩ example_message 429).2.2.2.1
     (by decide) (by decide) (by decide)⟩

/-- C2: with a present file reference, a declared MIME type equal to the
spreadsheet sentinel — or an absent `mimeType`, which defaults to the
sentinel — selects the export URL
`{API_BASE}/files/{id}/export?mimeType=text%2Fcsv` with effective MIME
type text/csv; any other declared MIME type selects
`{API_BASE}/files/{id}?alt=media` keeping that MIME type.  The third
conjunct shows the transport is consulted only at the selected URL; the
fourth shows fetch feeds the defaulted MIME type into the download. -/
theorem C2_url_selection (f : FileMeta) :
    ((f.mimeType = none ∨ f.mimeType = some "application/vnd.google-apps.spreadsheet") →
      do_download_url_mime f.id (f.mimeType.getD "application/vnd.google-apps.spreadsheet")
        = (GDRIVE_API_URL ++ "/files/" ++ f.id ++ "/export?mimeType=text%2Fcsv", "text/csv"))
    ∧ (∀ m, f.mimeType = some m → m ≠ "application/vnd.google-apps.spreadsheet" →
      do_download_url_mime f.id (f.mimeType.getD "application/vnd.google-apps.spreadsheet")
        = (GDRIVE_API_URL ++ "/files/" ++ f.id ++ "?alt=media", m))
    ∧ (∀ (c : OAuth2Client) (t₁ t₂ : Transport),
        (∀ hs, t₁ (do_download_url_mime f.id
                    (f.mimeType.getD "application/vnd.google-apps.spreadsheet")).1 hs
             = t₂ (do_download_url_mime f.id
                    (f.mimeType.getD "application/vnd.google-apps.spreadsheet")).1 hs) →
        do_download f.id (f.mimeType.getD "application/vnd.google-apps.spreadsheet") c t₁
          = do_download f.id (f.mimeType.getD "application/vnd.google-apps.spreadsheet") c t₂)
    ∧ (∀ (tok : SecretTokens) (t : Transport), f.id ≠ "" →
        fetch_arrow ⟨some f⟩ (some ⟨none, some tok⟩) t
          = .ok (do_download f.id (f.mimeType.getD "application/vnd.google-apps.spreadsheet")
                  ⟨tok.token_type, tok.access_token⟩ t)) := by
  refine ⟨?_, ?_, ?_, ?_⟩
  · rintro (h | h) <;>
      simp [h, do_download_url_mime, _generate_google_sheet_url]
  · intro m hm hne
    simp [hm, do_download_url_mime, hne, _generate_gdrive_file_url]
  · intro c t₁ t₂ hagree
    simp only [do_download, OAuth2Client.add_token]
    rw [hagree]
  · intro tok t hne
    simp [fetch_arrow, hne]

/-- Witness for C2 at a concrete non-sentinel MIME type. -/
theorem C2_url_selection_witness :
    do_download_url_mime "abc"
        ((some "text/csv").getD "application/vnd.google-apps.spreadsheet")
      = (GDRIVE_API_URL ++ "/files/" ++ "abc" ++ "?alt=media", "text/csv") :=
  (C2_url_selection
      ⟨"abc", "Police Data", "http://example.org/police-data", some "text/csv"⟩).2.1
    "text/csv" rfl (by decide)

/-- C5: fetch's failure checks short-circuit in order: an absent file
yields zero-length output and exactly the `noFile` error regardless of
the secrets; a present file (with non-empty id) and no stored credential
yield zero-length output and exactly the `noCredentials` error — both
for every transport, so no HTTP request is consulted. -/
theorem C5_first_failure_wins (secrets : Option Secret) (t : Transport)
    (f : FileMeta) :
    fetch_arrow ⟨none⟩ secrets t
        = .ok ⟨[], [⟨trans "error.params.noFile", []⟩]⟩
    ∧ (f.id ≠ "" →
        fetch_arrow ⟨some f⟩ none t
          = .ok ⟨[], [⟨trans "error.secrets.noCredentials", []⟩]⟩) := by
  constructor
  · rfl
  · intro hne
    simp [fetch_arrow, hne, fetch_error]

/-- Witness for C5: a no-file fetch with an error-carrying secret still
reports `noFile`, and a no-credential fetch reports `noCredentials`,
under a failing transport either way. -/
theorem C5_first_failure_wins_witness :
    fetch_arrow ⟨none⟩ (some ⟨some example_secret_error, none⟩)
        (fun _ _ => .failure example_message)
      = .ok ⟨[], [⟨trans "error.params.noFile", []⟩]⟩
    ∧ fetch_arrow ⟨some ⟨"sheet-id", "Police Data", "http://example.org", none⟩⟩
        none (fun _ _ => .failure example_message)
      = .ok ⟨[], [⟨trans "error.secrets.noCredentials", []⟩]⟩ :=
  ⟨(C5_first_failure_wins (some ⟨some example_secret_error, none⟩)
      (fun _ _ => .failure example_message)
      ⟨"sheet-id", "Police Data", "http://example.org", none⟩).1,
   (C5_first_failure_wins (some ⟨some example_secret_error, none⟩)
      (fun _ _ => .failure example_message)
      ⟨"sheet-id", "Police Data", "http://example.org", none⟩).2 (by decide)⟩

/-- C6: a stored credential carrying an `error` field makes fetch return
zero-length output and exactly one error whose message is the stored
value verbatim, for every transport (no HTTP request). -/
theorem C6_secret_error_passthrough (f : FileMeta) (e : I18nMessage)
    (s : Option SecretTokens) (t : Transport) (hid : f.id ≠ "") :
    fetch_arrow ⟨some f⟩ (some ⟨some e, s⟩) t = .ok ⟨[], [⟨e, []⟩]⟩ := by
  simp [fetch_arrow, hid, fetch_error]

/-- Witness for C6 at a concrete stored OAuth-refresh error. -/
theorem C6_secret_error_passthrough_witness :
    fetch_arrow ⟨some ⟨"sheet-id", "Police Data", "http://example.org", none⟩⟩
        (some ⟨some example_secret_error, none⟩)
        (fun _ _ => .failure example_message)
      = .ok ⟨[], [⟨example_secret_error, []⟩]⟩ :=
  C6_secret_error_passthrough
    ⟨"sheet-id", "Police Data", "http://example.org", none⟩
    example_secret_error none (fun _ _ => .failure example_message) (by decide)

/-- C9: fetch never uses the file reference's `url` (or `name`): two
invocations whose file references agree on `id` and `mimeType` produce
identical fetch results and identical constructed request URLs. -/
theorem C9_url_and_name_never_used (f₁ f₂ : FileMeta) (secrets : Option Secret)
    (t : Transport) (hid : f₁.id = f₂.id) (hmime : f₁.mimeType = f₂.mimeType) :
    fetch_arrow ⟨some f₁⟩ secrets t = fetch_arrow ⟨some f₂⟩ secrets t
    ∧ do_download_url_mime f₁.id
        (f₁.mimeType.getD "application/vnd.google-apps.spreadsheet")
      = do_download_url_mime f₂.id
        (f₂.mimeType.getD "application/vnd.google-apps.spreadsheet") := by
  constructor
  · simp only [fetch_arrow, hid, hmime]
  · rw [hid, hmime]

/-- Witness for C9: two file references differing only in `name` and
`url` fetch identically. -/
theorem C9_url_and_name_never_used_witness :
    fetch_arrow ⟨some ⟨"abc", "Name One", "http://example.org/one", some "text/csv"⟩⟩
        (some ⟨none, some ⟨"Bearer", "tok"⟩⟩) (fun _ _ => .failure example_message)
      = fetch_arrow ⟨some ⟨"abc", "Name Two", "http://example.org/two", some "text/csv"⟩⟩
        (some ⟨none, some ⟨"Bearer", "tok"⟩⟩) (fun _ _ => .failure example_message) :=
  (C9_url_and_name_never_used
      ⟨"abc", "Name One", "http://example.org/one", some "text/csv"⟩
      ⟨"abc", "Name Two", "http://example.org/two", some "text/csv"⟩
      (some ⟨none, some ⟨"Bearer", "tok"⟩⟩)
      (fun _ _ => .failure example_message) rfl rfl).1

/-! ### Claims about the render pipeline -/

/-- Example collaborators for render witnesses: the real parquet magic
sniff (first four bytes "PAR1"), an identity converter, and a parser
that produces an empty table. -/
def example_render_deps : RenderDeps :=
  ⟨fun b => decide (b.take 4 = [80, 65, 82, 49]),
   fun b => b,
   fun _ _ => ([], [])⟩

/-- C3: when the fetch result's path starts with the legacy parquet
magic signature, render converts the legacy file into the output table;
the returned errors start with the messages already stored in the fetch
result (as plain messages, quick fixes dropped), and when `has_header`
is false exactly one `cannotRemoveHeader` warning is appended after
them, while the output table is identical to the `has_header = true`
case. -/
theorem C3_render_deprecated_parquet (deps : RenderDeps) (out : List Nat)
    (fr : FetchResult)
    (hmagic : deps.file_has_parquet_magic_number fr.path = true) :
    render deps ⟨true⟩ out (some fr)
        = (deps.convert_parquet_file_to_arrow_file fr.path,
           fr.errors.map (fun e => e.message))
    ∧ render deps ⟨false⟩ out (some fr)
        = (deps.convert_parquet_file_to_arrow_file fr.path,
           fr.errors.map (fun e => e.message)
             ++ [trans "error.parquet.cannotRemoveHeader"]) := by
  constructor <;> simp [render, hmagic, _render_deprecated_parquet]

/-- Witness for C3 on a concrete parquet-magic file with one stored
error: the stored message comes first, then the warning. -/
theorem C3_render_deprecated_parquet_witness :
    render example_render_deps ⟨false⟩ []
        (some ⟨[80, 65, 82, 49, 7], [⟨example_message, []⟩]⟩)
      = ([80, 65, 82, 49, 7],
         [example_message, trans "error.parquet.cannotRemoveHeader"]) :=
  (C3_render_deprecated_parquet example_render_deps []
      ⟨[80, 65, 82, 49, 7], [⟨example_message, []⟩]⟩ (by decide)).2

/-- C4: render with an absent fetch result leaves an empty table at
`output_path` (the host supplies an empty file) and returns no errors;
render with a fetch result carrying a non-empty error list and no legacy
magic signature leaves the empty table and returns exactly the stored
error messages, in order. -/
theorem C4_render_error_passthrough (deps : RenderDeps) (p : RenderParams)
    (fr : FetchResult)
    (hmagic : deps.file_has_parquet_magic_number fr.path = false)
    (herr : fr.errors ≠ []) :
    render deps p [] none = ([], [])
    ∧ render deps p [] (some fr) = ([], fr.errors.map (fun e => e.message)) := by
  constructor
  · rfl
  · simp [render, hmagic, herr]

/-- Witness for C4 on a concrete non-parquet fetch result holding two
errors: both messages pass through, in order, over an empty output. -/
theorem C4_render_error_passthrough_witness :
    render example_render_deps ⟨true⟩ []
        (some ⟨[1, 2, 3], [⟨example_message, []⟩, ⟨example_secret_error, []⟩]⟩)
      = ([], [example_message, example_secret_error]) :=
  (C4_render_error_passthrough example_render_deps ⟨true⟩
      ⟨[1, 2, 3], [⟨example_message, []⟩, ⟨example_secret_error, []⟩]⟩
      (by decide) (List.cons_ne_nil _ _)).2

/-- C10: in the absent-fetch-result branch and in the stored-errors
branch (no legacy magic), render performs no write or truncation on
`output_path`: the output file content is unchanged, whatever it was, so
the empty-table outcome relies on the host supplying an already-empty
file. -/
theorem C10_render_frame (deps : RenderDeps) (p : RenderParams)
    (out : List Nat) (fr : FetchResult)
    (hmagic : deps.file_has_parquet_magic_number fr.path = false)
    (herr : fr.errors ≠ []) :
    render deps p out none = (out, [])
    ∧ render deps p out (some fr)
        = (out, fr.errors.map (fun e => e.message)) := by
  constructor
  · rfl
  · simp [render, hmagic, herr]

/-- Witness for C10 on a non-empty pre-existing output file: its bytes
survive both branches untouched. -/
theorem C10_render_frame_witness :
    render example_render_deps ⟨true⟩ [9, 9, 9] none = ([9, 9, 9], [])
    ∧ render example_render_deps ⟨true⟩ [9, 9, 9]
        (some ⟨[1, 2, 3], [⟨example_message, []⟩]⟩)
      = ([9, 9, 9], [example_message]) :=
  ⟨(C10_render_frame example_render_deps ⟨true⟩ [9, 9, 9]
      ⟨[1, 2, 3], [⟨example_message, []⟩]⟩ (by decide) (List.cons_ne_nil _ _)).1,
   (C10_render_frame example_render_deps ⟨true⟩ [9, 9, 9]
      ⟨[1, 2, 3], [⟨example_message, []⟩]⟩ (by decide) (List.cons_ne_nil _ _)).2⟩

/-! ### Claims about parameter migration -/

/-- A stand-in for the `json.loads` collaborator in witnesses. -/
def example_json_loads (s : String) : Except String JsonValue :=
  .ok (.obj [("id", .str s)])

/-- A v0 params dict, carrying the legacy `googlefileselect` key. -/
def example_v0_params : PyDict :=
  [("has_header", .bool false), ("version_select", .str ""),
   ("googlefileselect", .str "gfs-json-blob")]

/-- A v1 params dict, without the legacy key. -/
def example_v1_params : PyDict :=
  [("has_header", .bool false), ("version_select", .str ""),
   ("file", .obj [("id", .str "1AR-sdfsdf"), ("name", .str "Filename"),
                  ("mimeType", .str "text/csv")])]

/-- Helper: a successful `migrate_params` never leaves the legacy key in
its output — either the v0 branch rebuilt the dict from the three v1
keys, or the input already lacked the key. -/
theorem migrate_params_ok_no_legacy_key
    (json_loads : String → Except String JsonValue) (p q : PyDict)
    (h : migrate_params json_loads p = .ok q) :
    dict_lookup q "googlefileselect" = none := by
  unfold migrate_params at h
  split at h
  · unfold _migrate_params_v0_to_v1 at h
    split at h
    · cases h
    · split at h
      · cases h
      · split at h
        · cases h
        · split at h
          · cases h
          · cases h
            rfl
  · rename_i hns
    cases h
    simpa [Option.not_isSome_iff_eq_none] using hns

/-- C7: a legacy (v0) params dict containing `googlefileselect` migrates
to the v1 shape `[has_header, version_select, file]`, where `file` is
the JSON-decoded value of the `googlefileselect` string when it is
non-empty and null when it is empty, with the header flag and
version-select values preserved.  (The spec's camelCase field names
`hasHeader`/`versionSelect` denote the stored keys
`has_header`/`version_select`.) -/
theorem C7_migrate_v0_to_v1
    (json_loads : String → Except String JsonValue) (p : PyDict) (s : String)
    (hh vs fv : JsonValue)
    (hg : dict_lookup p "googlefileselect" = some (.str s))
    (hhh : dict_lookup p "has_header" = some hh)
    (hvs : dict_lookup p "version_select" = some vs) :
    (s ≠ "" → json_loads s = .ok fv →
      migrate_params json_loads p
        = .ok [("has_header", hh), ("version_select", vs), ("file", fv)])
    ∧ (s = "" →
      migrate_params json_loads p
        = .ok [("has_header", hh), ("version_select", vs), ("file", .null)]) := by
  constructor
  · intro hs hjl
    simp [migrate_params, hg, _migrate_params_v0_to_v1, JsonValue.truthy,
      hs, hjl, hhh, hvs]
  · intro hs
    subst hs
    simp [migrate_params, hg, _migrate_params_v0_to_v1, JsonValue.truthy,
      hhh, hvs]

/-- Witness for C7 on a concrete v0 dict with a non-empty file
selection. -/
theorem C7_migrate_v0_to_v1_witness :
    migrate_params example_json_loads example_v0_params
      = .ok [("has_header", .bool false), ("version_select", .str ""),
             ("file", .obj [("id", .str "gfs-json-blob")])] :=
  (C7_migrate_v0_to_v1 example_json_loads example_v0_params "gfs-json-blob"
      (.bool false) (.str "") (.obj [("id", .str "gfs-json-blob")])
      rfl rfl rfl).1 (by decide) rfl

/-- C8: `migrate_params` is idempotent — composing it with itself (in the
exception monad) equals a single application — and any params dict
without the legacy `googlefileselect` key is returned unchanged. -/
theorem C8_migrate_params_idempotent
    (json_loads : String → Except String JsonValue) (p : PyDict) :
    (migrate_params json_loads p >>= migrate_params json_loads)
        = migrate_params json_loads p
    ∧ (dict_lookup p "googlefileselect" = none →
        migrate_params json_loads p = .ok p) := by
  constructor
  · cases hm : migrate_params json_loads p with
    | error e => rfl
    | ok q =>
      have hq := migrate_params_ok_no_legacy_key json_loads p q hm
      show migrate_params json_loads q = .ok q
      unfold migrate_params
      rw [hq]
      rfl
  · intro h
    unfold migrate_params
    rw [h]
    rfl

/-- Witness for C8 on a concrete v1 dict: migration is a no-op and
re-migration changes nothing. -/
theorem C8_migrate_params_idempotent_witness :
    (migrate_params example_json_loads example_v1_params
        >>= migrate_params example_json_loads)
      = migrate_params example_json_loads example_v1_params
    ∧ migrate_params example_json_loads example_v1_params
      = .ok example_v1_params :=
  ⟨(C8_migrate_params_idempotent example_json_loads example_v1_params).1,
   (C8_migrate_params_idempotent example_json_loads example_v1_params).2 rfl⟩

end googlesheets
